import Mathlib

/-!
Verification of the headset-notification daemon (`src/headset-notify.py`).

The embedding models the two components of the program:

* the prober `check_headset` (lines 15–54), which parses the text output of
  the external `headsetcontrol -b` command into a reading
  `(device_name, battery_level, battery_available)`;
* the main loop (lines 101–145), which rate-limits probing, performs the
  connect/disconnect state transitions on the monitor state
  `(last_available, last_device_name, last_check)`, and then sleeps for an
  adaptively computed duration.

Machine-level details are modelled as follows: Python floats (`time.time()`
values, sleep durations, CPU percentages) become rationals `ℚ`; Python
strings become `List Char`; Python `None` becomes `Option.none`; the
possibility of a Python exception becomes an explicit `Except`/outcome value.
-/

/-- Python exception values are modelled abstractly by their message. -/
abbrev Exc := String

/-- The characters of the literal part of the pattern `Found (.*?)!`
(line 35 of the source). -/
def foundTok : List Char := ['F', 'o', 'u', 'n', 'd', ' ']

/-- The characters of the literal marker `BATTERY_AVAILABLE` (line 42). -/
def battTok : List Char :=
  ['B', 'A', 'T', 'T', 'E', 'R', 'Y', '_', 'A', 'V', 'A', 'I', 'L', 'A', 'B', 'L', 'E']

/-- The characters of the literal part of the pattern `Level: (\d+)%` (line 45). -/
def levelTok : List Char := ['L', 'e', 'v', 'e', 'l', ':', ' ']

/-- The result of one probe, `check_headset`'s return value (lines 20–25):
`(device_name, battery_level, battery_available)`. -/
structure Reading where
  device_name : Option (List Char)
  battery_level : Option Int
  battery_available : Bool
  deriving DecidableEq

/-- The loop's persistent variables (lines 110–112): `last_available`,
`last_device_name` and `last_check` (a timestamp). -/
structure MonitorState where
  last_available : Bool
  last_device_name : Option (List Char)
  last_check : ℚ
  deriving DecidableEq

/-- A desktop notification, `send_notification`'s argument, kept structured:
the connect notification carries the fresh reading's device name and battery
level (lines 129–132), the disconnect notification carries the remembered
`last_device_name` (lines 136–138). -/
inductive Notification where
  | turnedOn (device : Option (List Char)) (battery : Option Int)
  | turnedOff (lastName : Option (List Char))
  deriving DecidableEq

/-- Python `int` applied to the digit string captured by `(\d+)` (line 46). -/
def digitsToInt (ds : List Char) : Int :=
  ds.foldl (fun acc c => 10 * acc + ((c.toNat - '0'.toNat : Nat) : Int)) 0

/-- The non-greedy group `(.*?)` followed by `!`: the shortest run of
characters up to the first `!`, in which `.` does not match a newline.
Returns `none` when no `!` is reachable from this position. -/
def takeUntilBang : List Char → Option (List Char)
  | [] => none
  | c :: cs =>
    if c = '!' then some []
    else if c = '\n' then none
    else (takeUntilBang cs).map (fun g => c :: g)

/-- `re.search(r"Found (.*?)!", output)` (line 35): the leftmost position
where `Found ` matches and a `!` follows on the same line; the captured
group is the shortest such run. -/
def findFound : List Char → Option (List Char)
  | [] => none
  | c :: cs =>
    if foundTok.isPrefixOf (c :: cs) then
      match takeUntilBang ((c :: cs).drop foundTok.length) with
      | some g => some g
      | none => findFound cs
    else findFound cs

/-- `re.search(r"Level: (\d+)%", output)` (line 45): the leftmost position
where `Level: ` matches, followed by a nonempty maximal digit run ended
immediately by `%`; the captured group is the digit run.  (A shorter-than-
maximal digit run can never be followed by `%`, so greedy matching with
backtracking reduces to this.) -/
def findLevel : List Char → Option (List Char)
  | [] => none
  | c :: cs =>
    if levelTok.isPrefixOf (c :: cs) then
      let rest := (c :: cs).drop levelTok.length
      let digits := rest.takeWhile Char.isDigit
      if digits.isEmpty then findLevel cs
      else
        match rest.drop digits.length with
        | '%' :: _ => some digits
        | _ => findLevel cs
    else findLevel cs

/-- Python's substring test `pat in output` (line 42). -/
def containsTok (pat : List Char) : List Char → Bool
  | [] => pat.isEmpty
  | s@(_ :: cs) => pat.isPrefixOf s || containsTok pat cs

/-- `check_headset` (lines 15–54) on the captured, stripped standard output
of the status command.  The exception paths of the source (lines 50–54)
return the same reading `(None, None, False)` as the no-match path, so the
function on text is total.  `\d` is modelled as the ASCII digits. -/
def check_headset (output : List Char) : Reading :=
  match findFound output with
  | none => ⟨none, none, false⟩
  | some device_name =>
    let battery_available := containsTok battTok output
    let battery_level := (findLevel output).map digitsToInt
    ⟨some device_name, battery_level, battery_available⟩

/-- `adaptive_sleep` (lines 86–98), with the CPU percentage sampled by
`get_cpu_percent()` passed as an argument. -/
def adaptive_sleep (cpu_percent : ℚ) : ℚ :=
  if cpu_percent > 20 then 1/2 else 1/10

/-- Python truthiness of an optional string: `None` and the empty string
are falsy (the `and device_name` guard on line 135). -/
def pyTruthy : Option (List Char) → Bool
  | none => false
  | some s => !s.isEmpty

/-- `min_time_between_checks` (line 113). -/
def min_time_between_checks : ℚ := 1/10

/-- The transition block of the loop body (lines 128–139): given the held
state and the fresh reading, the updated state and the notifications sent. -/
def transition (st : MonitorState) (r : Reading) : MonitorState × List Notification :=
  if !st.last_available && r.battery_available then
    ({ st with last_available := true, last_device_name := r.device_name },
     [Notification.turnedOn r.device_name r.battery_level])
  else if st.last_available && !r.battery_available && pyTruthy r.device_name then
    ({ st with last_available := false },
     [Notification.turnedOff st.last_device_name])
  else (st, [])

/-- Outcome of the `try` block of one loop iteration (lines 116–142):
either the rate-limit branch ran `continue` (line 122), or the block ran to
completion, or an exception was raised somewhere inside it and the state is
whatever the partial execution left (`raised` is reachable only through an
exception of an external call; `tryBody` itself never produces it). -/
inductive TryOutcome where
  | continued (st : MonitorState)
  | completed (st : MonitorState) (sent : List Notification)
  | raised (st : MonitorState) (e : Exc)

/-- The exception-free meaning of the `try` block (lines 117–139): rate
limiting, then probe bookkeeping (`last_check = current_time`, line 125) and
the transition block, with the fresh reading passed in. -/
def tryBody (st : MonitorState) (now : ℚ) (r : Reading) : TryOutcome :=
  if now - st.last_check < min_time_between_checks then
    .continued st
  else
    let st1 := { st with last_check := now }
    let p := transition st1 r
    .completed p.1 p.2

/-- The environment of one iteration: the value of `time.time()` (line 117),
the reading the probe would produce, and the CPU percentage the sleep
computation would sample. -/
structure StepInput where
  now : ℚ
  reading : Reading
  cpu : ℚ
  deriving DecidableEq

/-- Observable outcome of one exception-free loop iteration: next state,
notifications sent, whether `check_headset` was invoked, and the duration
slept before the next iteration. -/
structure IterResult where
  state : MonitorState
  sent : List Notification
  probed : Bool
  sleep : ℚ
  deriving DecidableEq

/-- One exception-free iteration of the `while` loop (lines 115–145).  The
`continue` of the rate-limit branch skips the adaptive sleep and sleeps the
fixed `0.01` (line 121); a completed body sleeps `adaptive_sleep` (lines
144–145).  The `raised` arm is unreachable here since `tryBody` never
raises. -/
def loopIteration (st : MonitorState) (i : StepInput) : IterResult :=
  match tryBody st i.now i.reading with
  | .continued st1 => ⟨st1, [], false, 1/100⟩
  | .completed st1 sent => ⟨st1, sent, true, adaptive_sleep i.cpu⟩
  | .raised st1 _ => ⟨st1, [], true, adaptive_sleep i.cpu⟩

/-- The `time.time()` values of the iterations that actually invoked
`check_headset`, over a run of the loop on a list of step inputs. -/
def probeTimes : MonitorState → List StepInput → List ℚ
  | _, [] => []
  | st, i :: is =>
    if (loopIteration st i).probed then i.now :: probeTimes (loopIteration st i).state is
    else probeTimes (loopIteration st i).state is

/-- One iteration of the `while` loop with exceptions made explicit: the
`try`/`except` (lines 116–142) converts a raised body into a logged, caught
error, after which control reaches lines 144–145; the sleep computation
itself (`sleep_time = adaptive_sleep()`, outside the `try`) may raise, and
such an exception propagates out of `main` — it is not caught.  The
rate-limit `continue` never reaches lines 144–145 at all.  An `.ok` result
means the loop goes on to its next iteration with the given state after the
given sleep; an `.error` result means the process terminates with that
exception. -/
def loopIterationExc (body : TryOutcome) (sleepStep : Except Exc ℚ) :
    Except Exc (MonitorState × ℚ) :=
  match body with
  | .continued st1 => .ok (st1, 1/100)
  | .completed st1 _ => sleepStep.map (fun d => (st1, d))
  | .raised st1 _ => sleepStep.map (fun d => (st1, d))

/-! ## Helper lemmas -/

theorem transition_last_check (st : MonitorState) (r : Reading) :
    (transition st r).1.last_check = st.last_check := by
  unfold transition
  split_ifs <;> rfl

theorem transition_last_name_of_not_connect (st : MonitorState) (r : Reading)
    (h : ¬ (st.last_available = false ∧ r.battery_available = true)) :
    (transition st r).1.last_device_name = st.last_device_name := by
  unfold transition
  split_ifs with h1 h2
  · rw [Bool.and_eq_true, Bool.not_eq_true'] at h1
    exact absurd h1 h
  · rfl
  · rfl

/-! ## Claim theorems -/

/-- Claim C8: the adaptive sleep duration computed from a sampled CPU
utilization is `0.5` seconds when the utilization is strictly greater than
`20` and `0.1` seconds otherwise, including at exactly `20`. -/
theorem adaptive_sleep_policy (c : ℚ) :
    (20 < c → adaptive_sleep c = 1/2) ∧ (c ≤ 20 → adaptive_sleep c = 1/10) := by
  constructor
  · intro h
    simp [adaptive_sleep, h]
  · intro h
    simp [adaptive_sleep, not_lt.mpr h]

theorem adaptive_sleep_policy_witness :
    adaptive_sleep 25 = 1/2 ∧ adaptive_sleep 10 = 1/10 :=
  ⟨(adaptive_sleep_policy 25).1 (by norm_num), (adaptive_sleep_policy 10).2 (by norm_num)⟩

/-- Claim C2, amended: every exception raised inside the `try` block of a
loop iteration is caught (and logged) and the loop proceeds to the adaptive
sleep and the next iteration; a rate-limited iteration never even reaches
the sleep computation; but an exception raised by the adaptive-sleep step
itself, which sits outside the `try`, propagates and terminates the
process. -/
theorem loop_catches_try_block (stp : MonitorState) (sent : List Notification)
    (e : Exc) (d : ℚ) :
    loopIterationExc (.raised stp e) (.ok d) = .ok (stp, d) ∧
    loopIterationExc (.continued stp) (.error e) = .ok (stp, 1/100) ∧
    loopIterationExc (.completed stp sent) (.error e) = .error e :=
  ⟨rfl, rfl, rfl⟩

theorem loop_sleep_exception_cex :
    loopIterationExc (.completed ⟨false, none, 0⟩ []) (.error "cpu sampling failed")
      = .error "cpu sampling failed" := rfl

/-- Claim C1, amended: from state CONNECTED, on a reading with
`battery_available = false`, the "Headset Turned Off" notification naming
`last_device_name` is sent and the state becomes DISCONNECTED if and only if
the reading's `device_name` is non-null and non-empty (Python-truthy); when
`device_name` is null or empty, no notification fires and the state is
unchanged. -/
theorem transition_disconnect_iff_truthy (st : MonitorState) (r : Reading)
    (hc : st.last_available = true) (hb : r.battery_available = false) :
    ((transition st r).2 = [Notification.turnedOff st.last_device_name] ∧
        (transition st r).1.last_available = false ↔ pyTruthy r.device_name = true) ∧
    (pyTruthy r.device_name = false → transition st r = (st, [])) := by
  unfold transition
  cases hdn : pyTruthy r.device_name <;> simp [hc, hb, hdn]

theorem transition_disconnect_iff_truthy_witness :
    (transition ⟨true, some ['A'], 0⟩ ⟨some ['B'], none, false⟩).2
        = [Notification.turnedOff (some ['A'])] ∧
    (transition ⟨true, some ['A'], 0⟩ ⟨some ['B'], none, false⟩).1.last_available = false :=
  ((transition_disconnect_iff_truthy ⟨true, some ['A'], 0⟩ ⟨some ['B'], none, false⟩
    rfl rfl).1).mpr rfl

theorem transition_disconnect_nonnull_cex :
    (⟨some [], none, false⟩ : Reading).device_name ≠ none ∧
    transition ⟨true, some ['A'], 0⟩ ⟨some [], none, false⟩ = (⟨true, some ['A'], 0⟩, []) := by
  constructor
  · simp
  · rfl

/-- Claim C6: from DISCONNECTED, two consecutive readings that both report
`battery_available = true` produce exactly one "Headset Turned On"
notification, at the first reading; once CONNECTED, a further reading with
`battery_available = true` changes nothing and sends nothing. -/
theorem connect_once (st : MonitorState) (r1 r2 : Reading)
    (h0 : st.last_available = false) (h1 : r1.battery_available = true)
    (h2 : r2.battery_available = true) :
    transition st r1 =
      ({ st with last_available := true, last_device_name := r1.device_name },
       [Notification.turnedOn r1.device_name r1.battery_level]) ∧
    transition { st with last_available := true, last_device_name := r1.device_name } r2 =
      ({ st with last_available := true, last_device_name := r1.device_name }, []) := by
  constructor
  · unfold transition
    simp [h0, h1]
  · unfold transition
    simp [h2]

theorem connect_once_witness :
    transition ⟨false, none, 0⟩ ⟨some ['H'], some 80, true⟩ =
      (⟨true, some ['H'], 0⟩, [Notification.turnedOn (some ['H']) (some 80)]) ∧
    transition ⟨true, some ['H'], 0⟩ ⟨some ['H'], some 80, true⟩ =
      (⟨true, some ['H'], 0⟩, []) :=
  connect_once ⟨false, none, 0⟩ ⟨some ['H'], some 80, true⟩ ⟨some ['H'], some 80, true⟩
    rfl rfl rfl

/-- Claim C10: the disconnect transition mutates only `last_available`:
`last_device_name` and `last_check` are untouched by the branch, the emitted
notification names the held `last_device_name`, and the only branch that
ever changes `last_device_name` is the connect transition (DISCONNECTED with
an available battery), so the name reported at "Headset Turned Off" is the
one recorded at the preceding "Headset Turned On". -/
theorem disconnect_frame (st : MonitorState) (r : Reading)
    (hc : st.last_available = true) (hb : r.battery_available = false)
    (hn : pyTruthy r.device_name = true) :
    transition st r =
      ({ last_available := false, last_device_name := st.last_device_name,
         last_check := st.last_check }, [Notification.turnedOff st.last_device_name]) ∧
    (∀ (st2 : MonitorState) (r2 : Reading),
      (transition st2 r2).1.last_device_name ≠ st2.last_device_name →
      st2.last_available = false ∧ r2.battery_available = true) := by
  constructor
  · unfold transition
    simp [hc, hb, hn]
  · intro st2 r2 hne
    by_contra hcon
    exact hne (transition_last_name_of_not_connect st2 r2 hcon)

theorem disconnect_frame_witness :
    transition ⟨true, some ['A'], 5⟩ ⟨some ['B'], some 3, false⟩ =
      (⟨false, some ['A'], 5⟩, [Notification.turnedOff (some ['A'])]) :=
  (disconnect_frame ⟨true, some ['A'], 5⟩ ⟨some ['B'], some 3, false⟩ rfl rfl rfl).1

theorem takeUntilBang_sound : ∀ (s g : List Char), takeUntilBang s = some g →
    '\n' ∉ g ∧ ∃ r, s = g ++ '!' :: r := by
  intro s
  induction s with
  | nil =>
    intro g h
    simp [takeUntilBang] at h
  | cons c cs ih =>
    intro g h
    by_cases hbang : c = '!'
    · subst hbang
      simp [takeUntilBang] at h
      subst h
      exact ⟨by simp, cs, by simp⟩
    · by_cases hnl : c = '\n'
      · subst hnl
        simp [takeUntilBang] at h
      · simp only [takeUntilBang, if_neg hbang, if_neg hnl, Option.map_eq_some'] at h
        obtain ⟨g0, hg0, rfl⟩ := h
        obtain ⟨hnl0, r, hr⟩ := ih g0 hg0
        refine ⟨?_, r, by simp [hr]⟩
        simp only [List.mem_cons, not_or]
        exact ⟨fun he => hnl he.symm, hnl0⟩

theorem findFound_sound : ∀ (out g : List Char), findFound out = some g →
    '\n' ∉ g ∧ (foundTok ++ g ++ ['!']) <:+: out := by
  intro out
  induction out with
  | nil =>
    intro g h
    simp [findFound] at h
  | cons c cs ih =>
    intro g h
    by_cases hp : foundTok.isPrefixOf (c :: cs) = true
    · rw [findFound, if_pos hp] at h
      cases ht : takeUntilBang ((c :: cs).drop foundTok.length) with
      | some g1 =>
        simp only [ht, Option.some.injEq] at h
        subst h
        obtain ⟨t, htp⟩ := List.isPrefixOf_iff_prefix.mp hp
        obtain ⟨hnl, r, hr⟩ := takeUntilBang_sound _ _ ht
        have hdrop : (c :: cs).drop foundTok.length = t := by
          rw [← htp]
          exact List.drop_left _ _
        rw [hdrop] at hr
        refine ⟨hnl, ?_⟩
        have hout : c :: cs = (foundTok ++ g1 ++ ['!']) ++ r := by
          rw [← htp, hr]
          simp
        rw [hout]
        exact (List.prefix_append _ _).isInfix
      | none =>
        simp only [ht] at h
        obtain ⟨hnl, hinf⟩ := ih g h
        exact ⟨hnl, List.infix_cons hinf⟩
    · rw [findFound, if_neg hp] at h
      obtain ⟨hnl, hinf⟩ := ih g h
      exact ⟨hnl, List.infix_cons hinf⟩

theorem foldl_digits_nonneg : ∀ (ds : List Char) (acc : Int), 0 ≤ acc →
    0 ≤ ds.foldl (fun a c => 10 * a + ((c.toNat - '0'.toNat : Nat) : Int)) acc := by
  intro ds
  induction ds with
  | nil =>
    intro acc h
    simpa using h
  | cons c cs ih =>
    intro acc h
    simp only [List.foldl_cons]
    refine ih _ ?_
    have h1 : (0:Int) ≤ 10 * acc := mul_nonneg (by norm_num) h
    have h2 : (0:Int) ≤ ((c.toNat - '0'.toNat : Nat) : Int) := Int.natCast_nonneg _
    linarith

/-- Claim C4: an output with no `Found <name>!` substring (no occurrence of
the literal `Found `, then any newline-free run, then `!`) makes
`check_headset` return `(None, None, False)`, regardless of any other
content. -/
theorem check_headset_no_device (out : List Char)
    (h : ∀ w : List Char, '\n' ∉ w → ¬ (foundTok ++ w ++ ['!']) <:+: out) :
    check_headset out = ⟨none, none, false⟩ := by
  cases hf : findFound out with
  | none =>
    unfold check_headset
    rw [hf]
  | some g =>
    obtain ⟨hnl, hinf⟩ := findFound_sound out g hf
    exact absurd hinf (h g hnl)

theorem check_headset_no_device_witness :
    check_headset "no headset attached".toList = ⟨none, none, false⟩ :=
  check_headset_no_device _ (by
    intro w _ hinf
    rw [List.append_assoc] at hinf
    exact absurd ((List.prefix_append foundTok (w ++ ['!'])).isInfix.trans hinf) (by decide))

/-- Claim C9: a reading produced by `check_headset` with
`battery_available = true` always carries a non-null `device_name`, because
the device-match check gates the battery check. -/
theorem available_implies_named (out : List Char)
    (h : (check_headset out).battery_available = true) :
    (check_headset out).device_name ≠ none := by
  cases hf : findFound out with
  | none =>
    unfold check_headset at h
    rw [hf] at h
    simp at h
  | some g =>
    unfold check_headset
    rw [hf]
    simp

theorem available_implies_named_witness :
    (check_headset "Found X! BATTERY_AVAILABLE".toList).battery_available = true ∧
    (check_headset "Found X! BATTERY_AVAILABLE".toList).device_name ≠ none :=
  ⟨by decide, available_implies_named _ (by decide)⟩

/-- Claim C5, amended: the `battery_level` field of any reading produced by
`check_headset` is either null or a nonnegative integer — the digits of the
first `Level: (\d+)%` match parsed as an integer; the code never checks the
value against an upper bound of 100. -/
theorem check_headset_level_nonneg (out : List Char) :
    (check_headset out).battery_level = none ∨
    ∃ n : Int, (check_headset out).battery_level = some n ∧ 0 ≤ n := by
  cases hf : findFound out with
  | none =>
    left
    simp [check_headset, hf]
  | some g =>
    cases hl : findLevel out with
    | none =>
      left
      simp [check_headset, hf, hl]
    | some ds =>
      right
      refine ⟨digitsToInt ds, by simp [check_headset, hf, hl], ?_⟩
      exact foldl_digits_nonneg ds 0 le_rfl

theorem level_range_cex :
    (check_headset "Found X! Level: 999%".toList).battery_level = some 999 ∧
    ¬ ((999:Int) ≤ 100) := by decide

/-- Claim C3, amended: for every output whose leftmost `Found (.*?)!` match
captures exactly `X`, which contains the substring `BATTERY_AVAILABLE`, and
whose leftmost `Level: (\d+)%` match captures the digit string `57`,
`check_headset` returns `("X", 57, True)`.  (Containing `Found X!` and
`Level: 57%` as mere substrings does not suffice: an earlier occurrence of
either pattern wins, see the counterexample.) -/
theorem check_headset_first_match (out : List Char)
    (hf : findFound out = some ['X'])
    (hb : containsTok battTok out = true)
    (hl : findLevel out = some ['5', '7']) :
    check_headset out = ⟨some ['X'], some 57, true⟩ := by
  simp only [check_headset, hf, hb, hl, Option.map_some']
  decide

theorem check_headset_first_match_witness :
    check_headset "Found X! BATTERY_AVAILABLE Level: 57%".toList
      = ⟨some ['X'], some 57, true⟩ :=
  check_headset_first_match _ (by decide) (by decide) (by decide)

theorem contains_substrings_cex :
    ("Found X!".toList <:+: "Found A!Found X! BATTERY_AVAILABLE Level: 57%".toList) ∧
    ("BATTERY_AVAILABLE".toList <:+: "Found A!Found X! BATTERY_AVAILABLE Level: 57%".toList) ∧
    ("Level: 57%".toList <:+: "Found A!Found X! BATTERY_AVAILABLE Level: 57%".toList) ∧
    check_headset "Found A!Found X! BATTERY_AVAILABLE Level: 57%".toList
      = ⟨some ['A'], some 57, true⟩ ∧
    (some ['A'] : Option (List Char)) ≠ some ['X'] := by decide

theorem probeTimes_cons (st : MonitorState) (i : StepInput) (is : List StepInput) :
    probeTimes st (i :: is) =
      if (loopIteration st i).probed then i.now :: probeTimes (loopIteration st i).state is
      else probeTimes (loopIteration st i).state is := rfl

theorem loopIteration_skip (st : MonitorState) (i : StepInput)
    (h : i.now - st.last_check < min_time_between_checks) :
    loopIteration st i = ⟨st, [], false, 1/100⟩ := by
  simp [loopIteration, tryBody, h]

theorem loopIteration_probe (st : MonitorState) (i : StepInput)
    (h : ¬ i.now - st.last_check < min_time_between_checks) :
    (loopIteration st i).probed = true ∧ (loopIteration st i).state.last_check = i.now := by
  simp only [loopIteration, tryBody, if_neg h]
  refine ⟨trivial, ?_⟩
  exact transition_last_check _ _

theorem probeTimes_sep : ∀ (is : List StepInput) (st : MonitorState),
    (∀ t ∈ probeTimes st is, st.last_check + min_time_between_checks ≤ t) ∧
    List.Pairwise (fun a b : ℚ => a + min_time_between_checks ≤ b) (probeTimes st is) := by
  intro is
  induction is with
  | nil =>
    intro st
    simp [probeTimes]
  | cons i is ih =>
    intro st
    have hmt : (0:ℚ) < min_time_between_checks := by norm_num [min_time_between_checks]
    by_cases h : i.now - st.last_check < min_time_between_checks
    · rw [probeTimes_cons, loopIteration_skip st i h]
      simpa using ih st
    · obtain ⟨hp, hc⟩ := loopIteration_probe st i h
      rw [probeTimes_cons, hp]
      simp only [if_true]
      have hnow : st.last_check + min_time_between_checks ≤ i.now := by
        have := not_lt.mp h
        linarith
      obtain ⟨hall, hpw⟩ := ih (loopIteration st i).state
      constructor
      · intro t ht
        rcases List.mem_cons.mp ht with rfl | ht'
        · exact hnow
        · have := hall t ht'
          rw [hc] at this
          linarith
      · refine List.pairwise_cons.mpr ⟨?_, hpw⟩
        intro t ht
        have := hall t ht
        rwa [hc] at this

theorem pairwise_window (t0 : ℚ) : ∀ (l : List ℚ),
    List.Pairwise (fun a b : ℚ => a + min_time_between_checks ≤ b) l →
    (l.filter fun t =>
      decide (t0 ≤ t) && decide (t < t0 + min_time_between_checks)).length ≤ 1 := by
  intro l
  induction l with
  | nil =>
    intro _
    simp
  | cons x xs ih =>
    intro hp
    obtain ⟨hx, hxs⟩ := List.pairwise_cons.mp hp
    rw [List.filter_cons]
    by_cases hin : (decide (t0 ≤ x) && decide (x < t0 + min_time_between_checks)) = true
    · rw [if_pos hin]
      simp only [Bool.and_eq_true, decide_eq_true_eq] at hin
      have hempty : (xs.filter fun t =>
          decide (t0 ≤ t) && decide (t < t0 + min_time_between_checks)) = [] := by
        rw [List.filter_eq_nil_iff]
        intro t ht
        have hsep := hx t ht
        simp only [Bool.and_eq_true, decide_eq_true_eq, not_and]
        intro _
        linarith [hin.1, hin.2]
      rw [hempty]
      simp
    · rw [if_neg hin]
      exact ih hxs

/-- Claim C7: an iteration arriving less than `0.1` seconds after
`last_check` sleeps the fixed `0.01`, leaves the state untouched, sends
nothing, and does not invoke the prober or the adaptive sleep; consequently,
over any run of the loop, at most one probe invocation falls inside any
half-open `0.1`-second window. -/
theorem rate_limit_bound (st : MonitorState) :
    (∀ i : StepInput, i.now - st.last_check < min_time_between_checks →
      loopIteration st i = ⟨st, [], false, 1/100⟩) ∧
    (∀ (is : List StepInput) (t0 : ℚ),
      ((probeTimes st is).filter fun t =>
        decide (t0 ≤ t) && decide (t < t0 + min_time_between_checks)).length ≤ 1) :=
  ⟨fun i h => loopIteration_skip st i h,
   fun is t0 => pairwise_window t0 _ (probeTimes_sep is st).2⟩

theorem rate_limit_bound_witness :
    loopIteration ⟨false, none, 0⟩ ⟨1/20, ⟨none, none, false⟩, 0⟩
      = ⟨⟨false, none, 0⟩, [], false, 1/100⟩ ∧
    ((probeTimes ⟨false, none, 0⟩
        [⟨0, ⟨none, none, false⟩, 0⟩, ⟨1/20, ⟨none, none, false⟩, 0⟩]).filter fun t =>
      decide ((0:ℚ) ≤ t) && decide (t < 0 + min_time_between_checks)).length ≤ 1 :=
  ⟨(rate_limit_bound ⟨false, none, 0⟩).1 ⟨1/20, ⟨none, none, false⟩, 0⟩
      (by norm_num [min_time_between_checks]),
   (rate_limit_bound ⟨false, none, 0⟩).2 _ 0⟩
